import Mathlib

/-!
# Verification of the bulk order import / stock-allocation engine

A shallow embedding of `saleor/graphql/order/bulk_mutations/order_bulk_create.py`
(the `OrderBulkCreate` mutation) together with theorems settling the frozen
claims about its specification.

Modelling conventions:
* `Decimal` amounts are embedded as `ℚ` (the python code divides `Decimal`
  values inside a 28-significant-digit context; the division here is exact,
  which matches the spec's description "per-unit net/gross by exact division").
* datetimes are embedded as `Int` (seconds); `timezone.now()` becomes an
  explicit `now : Int` parameter.
* django model rows (`Stock`, `Order`, `OrderLine`, ...) are embedded as
  structures holding the fields this mutation reads or writes.
* python dicts keyed by `f"{variant_id}_{warehouse_id}"` are embedded as
  association lists keyed by `Nat × Nat`; in-place mutation of a row stored
  in the dict becomes a functional update of the entry.
* entity lookups hitting the database are embedded as explicit finite maps /
  boolean predicates passed in as parameters.
-/

namespace OrderBulk

/-- Constant `MINUTES_DIFF = 5` (order_bulk_create.py line 68), in minutes. -/
def MINUTES_DIFF : Int := 5

/-- Constant `MAX_ORDERS = 50` (order_bulk_create.py line 69). -/
def MAX_ORDERS : Nat := 50

/-- Constant `MAX_NOTE_LENGTH = 200` (order_bulk_create.py line 70). -/
def MAX_NOTE_LENGTH : Nat := 200

/-- The members of `OrderBulkCreateErrorCode` used by this mutation. -/
inductive ErrorCode where
  | futureDate
  | invalid
  | priceError
  | invalidQuantity
  | unique
  | notFound
  | tooManyIdentifiers
  | required
  | metadataKeyRequired
  | noteLength
  | negativeIndex
  | noRelatedOrderLine
  | orderLineFulfillmentLineMismatch
  | nonExistingStock
  | insufficientStock
  | bulkLimit
  deriving DecidableEq, Repr

/-- The `OrderBulkError` dataclass (lines 73-77): message, optional code,
optional dotted path. -/
structure OrderBulkError where
  message : String
  code : Option ErrorCode := none
  path : Option String := none
  deriving DecidableEq, Repr

/-- Modelled from the spec: the error-policy options of the batch call are
`reject_everything` and `reject_failed_rows` (spec glossary: "Error policy:
`reject_everything` | `reject_failed_rows`").  The `ErrorPolicy` enum class
itself is not part of the sources; these are exactly the two members
`handle_error_policy` dispatches on. -/
inductive ErrorPolicy where
  | rejectEverything
  | rejectFailedRows
  deriving DecidableEq, Repr

/-- The three `StockUpdatePolicy` members referenced by the code
(`UPDATE`, `FORCE`, `SKIP`; the enum class itself lives outside src). -/
inductive StockUpdatePolicy where
  | update
  | force
  | skip
  deriving DecidableEq, Repr

/-- Default for the `error_policy` argument (line 1942). -/
def defaultErrorPolicy : ErrorPolicy := ErrorPolicy.rejectEverything

/-- Default for the `stock_update_policy` argument (lines 1943-1945). -/
def defaultStockUpdatePolicy : StockUpdatePolicy := StockUpdatePolicy.update

/-- The fields of an unsaved `Order` row that the claims are about.  `number`
is `none` when the input gives no explicit number (the database assigns one at
save time). -/
structure OrderRec where
  number : Option String := none
  deriving DecidableEq, Repr

/-- The fields of an unsaved `OrderLine` row read by the stock allocator:
`id`, `variant_id`, `quantity`. -/
structure OrderLineRec where
  id : Nat
  variantId : Nat
  quantity : Int
  deriving DecidableEq, Repr

/-- `OrderBulkOrderLine` (lines 92-95): an order line paired with the
warehouse it will be allocated from. -/
structure OrderBulkOrderLine where
  line : OrderLineRec
  warehouseId : Nat
  deriving DecidableEq, Repr

/-- The fields of an unsaved `FulfillmentLine` row used here: the id of the
order line it references and its quantity. -/
structure FulfillmentLineRec where
  orderLineId : Nat
  quantity : Int
  deriving DecidableEq, Repr

/-- `OrderBulkFulfillmentLine` (lines 80-83): a fulfillment line paired with
its warehouse. -/
structure OrderBulkFulfillmentLine where
  line : FulfillmentLineRec
  warehouseId : Nat
  deriving DecidableEq, Repr

/-- `OrderBulkFulfillment` (lines 86-89), restricted to its lines. -/
structure OrderBulkFulfillment where
  lines : List OrderBulkFulfillmentLine
  deriving DecidableEq, Repr

/-- The `OrderBulkClass` aggregate (lines 98-128), restricted to the fields
the verified claims read: the optional order record, the error list, the
order lines, the fulfillments and the `is_critical_error` flag. -/
structure OrderBulkClass where
  order : Option OrderRec := none
  errors : List OrderBulkError := []
  lines : List OrderBulkOrderLine := []
  fulfillments : List OrderBulkFulfillment := []
  is_critical_error : Bool := false
  deriving DecidableEq, Repr

/-- All fulfillment lines of an order, flattened
(`all_fulfillment_lines`, lines 162-166). -/
def OrderBulkClass.allFulfillmentLines (o : OrderBulkClass) :
    List OrderBulkFulfillmentLine :=
  o.fulfillments.flatMap (fun f => f.lines)

/-- `orderline_quantityfulfilled_map` (lines 190-198) looked up at one order
line id with default `0`: the sum of the quantities of all fulfillment lines
referencing that order line. -/
def OrderBulkClass.quantityFulfilled (o : OrderBulkClass) (lineId : Nat) : Int :=
  (o.allFulfillmentLines.filter (fun fl => fl.line.orderLineId == lineId)).foldl
    (fun acc fl => acc + fl.line.quantity) 0

/-- `unique_variant_ids` (lines 200-204): the deduplicated variant ids of the
order's lines. -/
def OrderBulkClass.uniqueVariantIds (o : OrderBulkClass) : List Nat :=
  (o.lines.map (fun l => l.line.variantId)).dedup

/-- `unique_warehouse_ids` (lines 206-208). -/
def OrderBulkClass.uniqueWarehouseIds (o : OrderBulkClass) : List Nat :=
  (o.lines.map (fun l => l.warehouseId)).dedup

/-- `order_lines_duplicates` (lines 149-156): true when two of the order's
lines share a `(variant, warehouse)` pair.  (In the source this property is
defined on `OrderBulkClass` but is never called by the mutation.) -/
def OrderBulkClass.orderLinesDuplicates (o : OrderBulkClass) : Bool :=
  let keys := o.lines.map (fun l => (l.line.variantId, l.warehouseId))
  keys.length != keys.dedup.length

/-- A `Stock` row: `quantity`, `quantity_allocated`, and `extra`, a stand-in
for every other column of the row (the mutation code never reads or writes
any other column). -/
structure Stock where
  quantity : Int
  quantity_allocated : Int
  extra : Int := 0
  deriving DecidableEq, Repr

/-- The `stocks_map` dict (lines 1769-1772): an association list keyed by
`(product_variant_id, warehouse_id)`. -/
def StocksMap := List ((Nat × Nat) × Stock)

instance : DecidableEq StocksMap := inferInstanceAs (DecidableEq (List _))

instance : Repr StocksMap := inferInstanceAs (Repr (List _))

/-- Dict lookup `stocks_map.get(f"{variant_id}_{warehouse_id}")`. -/
def lookupStock (m : StocksMap) (k : Nat × Nat) : Option Stock :=
  (m.find? (fun p => p.1 == k)).map (fun p => p.2)

/-- In-place mutation of the `Stock` object stored under key `k`
(python mutates the row object held by the dict). -/
def setStock (m : StocksMap) (k : Nat × Nat) (s : Stock) : StocksMap :=
  m.map (fun p => if p.1 == k then (k, s) else p)

/-- Dotted path `f"lines.[{index}]"`. -/
def linePath (index : Nat) : String :=
  "lines.[" ++ toString index ++ "]"

/-- The `INVALID_QUANTITY` error appended at lines 1790-1799 (message without
the interpolated ids). -/
def invalidQuantityStockError (index : Nat) : OrderBulkError :=
  { message := "There is more fulfillments, than ordered quantity for order line."
    path := some (linePath index)
    code := some ErrorCode.invalidQuantity }

/-- The `NON_EXISTING_STOCK` error appended at lines 1804-1813. -/
def nonExistingStockError (index : Nat) : OrderBulkError :=
  { message := "There is no stock for given product variant and warehouse."
    path := some (linePath index)
    code := some ErrorCode.nonExistingStock }

/-- The `INSUFFICIENT_STOCK` error appended at lines 1822-1830. -/
def insufficientStockError (index : Nat) : OrderBulkError :=
  { message := "Insufficient stock for product variant and warehouse."
    path := some (linePath index)
    code := some ErrorCode.insufficientStock }

/-- The `for line in order.lines` loop of `handle_stocks` (lines 1779-1840),
acting on the per-order deep copy of the stocks map.  Returns the errors
appended to `order.errors`, whether a critical error was raised, and the
mutated copy.  A negative `quantity_to_allocate` or a missing stock row
appends a critical error and `break`s; insufficient stock (under a policy
other than `FORCE`) appends a critical error but the loop continues, still
incrementing `quantity_allocated` and consuming the fulfilled quantities. -/
def handleStocksLines (policy : StockUpdatePolicy) (ord : OrderBulkClass) :
    List OrderBulkOrderLine → Nat → StocksMap →
    List OrderBulkError × Bool × StocksMap
  | [], _, m => ([], false, m)
  | l :: rest, index, m =>
    let orderLine := l.line
    let quantityToFulfill := orderLine.quantity
    let quantityFulfilled := ord.quantityFulfilled orderLine.id
    let quantityToAllocate := quantityToFulfill - quantityFulfilled
    if quantityToAllocate < 0 then
      ([invalidQuantityStockError index], true, m)
    else
      match lookupStock m (orderLine.variantId, l.warehouseId) with
      | none => ([nonExistingStockError index], true, m)
      | some stock =>
        let availableQuantity := stock.quantity - stock.quantity_allocated
        let insufficient :=
          quantityToAllocate > availableQuantity ∧ policy ≠ StockUpdatePolicy.force
        let stock1 :=
          { stock with quantity_allocated := stock.quantity_allocated + quantityToAllocate }
        let stock2 :=
          { stock1 with quantity := stock1.quantity - quantityFulfilled }
        let m1 := setStock m (orderLine.variantId, l.warehouseId) stock2
        let (errs, crit, m2) := handleStocksLines policy ord rest (index + 1) m1
        ((if insufficient then [insufficientStockError index] else []) ++ errs,
          (decide insufficient || crit), m2)

/-- One iteration of the `for order in orders` loop of `handle_stocks`
(lines 1774-1843): simulate the order's lines on a deep copy of the shared
map; the copy replaces the shared map only when the order's
`is_critical_error` flag is still false afterwards. -/
def processOrder (policy : StockUpdatePolicy) (m : StocksMap)
    (o : OrderBulkClass) : OrderBulkClass × StocksMap :=
  let (errs, crit, copy) := handleStocksLines policy o o.lines 0 m
  let o1 := { o with
    errors := o.errors ++ errs
    is_critical_error := o.is_critical_error || crit }
  (o1, if o1.is_critical_error then m else copy)

/-- The order loop of `handle_stocks`, threading the shared stocks map. -/
def handleStocksGo (policy : StockUpdatePolicy) :
    List OrderBulkClass → StocksMap → List OrderBulkClass × StocksMap
  | [], m => ([], m)
  | o :: os, m =>
    let (o1, m1) := processOrder policy m o
    let (os1, m2) := handleStocksGo policy os m1
    (o1 :: os1, m2)

/-- The initial `stocks_map` fetch (lines 1760-1772): all rows of the stock
database whose variant id occurs in some surviving order and whose warehouse
id occurs in some surviving order (the two `__in` filters are independent). -/
def buildStocksMap (db : StocksMap) (orders : List OrderBulkClass) : StocksMap :=
  let variantIds :=
    (orders.filter (fun o => o.order.isSome)).flatMap
      OrderBulkClass.uniqueVariantIds
  let warehouseIds :=
    (orders.filter (fun o => o.order.isSome)).flatMap
      OrderBulkClass.uniqueWarehouseIds
  db.filter (fun p => variantIds.contains p.1.1 && warehouseIds.contains p.1.2)

/-- `handle_stocks` (lines 1756-1845): fetch the touched stock rows, simulate
every order, and return the updated orders together with the final shared
map (the python function returns `stocks_map.values()`). -/
def handleStocks (orders : List OrderBulkClass)
    (policy : StockUpdatePolicy) (db : StocksMap) :
    List OrderBulkClass × StocksMap :=
  handleStocksGo policy orders (buildStocksMap db orders)

/-- The `UNIQUE` error appended by `validate_order_numbers` (lines 773-780)
for a number already used earlier in the batch. -/
def uniqueBatchNumberError : OrderBulkError :=
  { message := "Input contains multiple orders with the same number."
    path := some "number"
    code := some ErrorCode.unique }

/-- The loop of `validate_order_numbers` (lines 769-783): walk the orders in
input order, keeping a list of the numbers seen on orders that still hold an
order record; a later record with a number already seen gets a `UNIQUE` error
and its record set to `None`.  (The subsequent `order_order_number_seq`
bookkeeping, lines 785-792, touches only the database sequence and is not
modelled.) -/
def validateOrderNumbersGo :
    List (Option String) → List OrderBulkClass → List OrderBulkClass
  | _, [] => []
  | numbers, o :: os =>
    match o.order with
    | some rec =>
      if rec.number ∈ numbers then
        { o with
            errors := o.errors ++ [uniqueBatchNumberError]
            order := none } :: validateOrderNumbersGo numbers os
      else
        o :: validateOrderNumbersGo (numbers ++ [rec.number]) os
    | none => o :: validateOrderNumbersGo numbers os

/-- `validate_order_numbers` (lines 768-783). -/
def validateOrderNumbers (orders : List OrderBulkClass) : List OrderBulkClass :=
  validateOrderNumbersGo [] orders

/-- `handle_error_policy` (lines 1847-1857): if any order in the batch has an
error, `REJECT_EVERYTHING` nulls every order's record and
`REJECT_FAILED_ROWS` nulls the records of the orders that have errors of
their own. -/
def handleErrorPolicy (orders : List OrderBulkClass)
    (policy : ErrorPolicy) : List OrderBulkClass :=
  if orders.any (fun o => !o.errors.isEmpty) then
    orders.map (fun o =>
      match policy with
      | ErrorPolicy.rejectEverything => { o with order := none }
      | ErrorPolicy.rejectFailedRows =>
        if !o.errors.isEmpty then { o with order := none } else o)
  else orders

/-- The fields of a `Stock` row that `bulk_update` can be asked to write. -/
inductive StockField where
  | quantity
  | quantityAllocated
  deriving DecidableEq, Repr

/-- Copy one field from a source row onto a destination row. -/
def writeStockField (f : StockField) (src dst : Stock) : Stock :=
  match f with
  | StockField.quantity => { dst with quantity := src.quantity }
  | StockField.quantityAllocated =>
    { dst with quantity_allocated := src.quantity_allocated }

/-- `Stock.objects.bulk_update(stocks, fields)`: for every database row whose
key appears among the updated rows, write back exactly the listed fields;
every other column and every untouched row keeps its database value. -/
def bulkUpdateStocks (fields : List StockField) (db rows : StocksMap) :
    StocksMap :=
  db.map (fun p =>
    match lookupStock rows p.1 with
    | some r => (p.1, fields.foldl (fun acc f => writeStockField f r acc) p.2)
    | none => p)

/-- The nulling pass at the start of `save_data` (lines 1861-1865): an order
whose `is_critical_error` flag is set loses its order record.  (The
`set_quantity_fulfilled` / `set_fulfillment_order` calls write bookkeeping
fields not modelled here, and the bulk inserts create the surviving rows.) -/
def saveDataNull (orders : List OrderBulkClass) : List OrderBulkClass :=
  orders.map (fun o =>
    if o.is_critical_error then { o with order := none } else o)

/-- The outcome of one batch call: the final per-order states (in input
order), the stock rows handed to `bulk_update`, the persisted stock
database, and the returned `count`. -/
structure BulkResult where
  orders : List OrderBulkClass
  stocks : StocksMap
  db : StocksMap
  count : Nat
  deriving DecidableEq, Repr

/-- The committed tail of `perform_mutation` (lines 1942-1964), starting from
the per-order states produced by `create_single_order`:
`validate_order_numbers`, `handle_error_policy`, `handle_stocks` (unless the
stock update policy is `SKIP`, in which case no stock row is touched),
`save_data` — which nulls critical orders and persists stocks with
`bulk_update(stocks, ["quantity"])` (line 1900) — and the returned `count`
of orders whose record is not null. -/
def pipeline (orders0 : List OrderBulkClass) (errorPolicy : ErrorPolicy)
    (stockPolicy : StockUpdatePolicy) (db : StocksMap) : BulkResult :=
  let orders1 := validateOrderNumbers orders0
  let orders2 := handleErrorPolicy orders1 errorPolicy
  let (orders3, stocks) :=
    if stockPolicy ≠ StockUpdatePolicy.skip then
      handleStocks orders2 stockPolicy db
    else (orders2, [])
  let orders4 := saveDataNull orders3
  { orders := orders4
    stocks := stocks
    db := bulkUpdateStocks [StockField.quantity] db stocks
    count := orders4.countP (fun o => o.order.isSome) }

/-- The `BULK_LIMIT` error returned when the batch exceeds `MAX_ORDERS`
(lines 1926-1929). -/
def bulkLimitError : OrderBulkError :=
  { message := "Number of orders exceeds limit."
    code := some ErrorCode.bulkLimit }

/-- The whole-batch result of `perform_mutation`: either the single
batch-level `BULK_LIMIT` result or the per-order results of the pipeline. -/
structure MutationResult where
  count : Nat
  results : List (Option OrderRec × List OrderBulkError)
  persisted : List OrderRec
  db : StocksMap
  deriving DecidableEq, Repr

/-- `perform_mutation` (lines 1922-1964), parameterised over the per-order
resolution step (`create_single_order` applied to each input with the shared
lookup cache): when the input list exceeds `MAX_ORDERS` the call returns a
single `BULK_LIMIT` error with `count = 0` before any per-order work;
otherwise every input is resolved and the committed pipeline runs. -/
def performMutation {α : Type} (resolve : α → OrderBulkClass)
    (ordersInput : List α) (errorPolicy : ErrorPolicy)
    (stockPolicy : StockUpdatePolicy) (db : StocksMap) : MutationResult :=
  if ordersInput.length > MAX_ORDERS then
    { count := 0
      results := [(none, [bulkLimitError])]
      persisted := []
      db := db }
  else
    let res := pipeline (ordersInput.map resolve) errorPolicy stockPolicy db
    { count := res.count
      results := res.orders.map (fun o => (o.order, o.errors))
      persisted := res.orders.filterMap (fun o => o.order)
      db := res.db }

/-! ## Entity resolver -/

/-- One identifier field handed to `get_instance`: the value supplied in the
input (if any) and the lookup this field performs in the prefetched object
storage, returning the id of the resolved entity. -/
structure KeyAttempt where
  provided : Option String
  resolve : String → Option Nat

/-- The entities resolved by the provided identifier fields, in key-map
order. -/
def resolvedEntities (attempts : List KeyAttempt) : List Nat :=
  attempts.filterMap (fun a => a.provided.bind a.resolve)

/-- A `NOT_FOUND` error keyed by the dotted path of the input field. -/
def notFoundError (path : String) : OrderBulkError :=
  { message := "Entity not found."
    code := some ErrorCode.notFound
    path := some path }

/-- A `TOO_MANY_IDENTIFIERS` error keyed by the dotted path. -/
def tooManyIdentifiersError (path : String) : OrderBulkError :=
  { message := "Multiple identifiers resolve to different entities."
    code := some ErrorCode.tooManyIdentifiers
    path := some path }

/-- Modelled from the spec: `get_instance`
(`saleor/graphql/order/bulk_mutations/utils.py`, imported at line 66, is not
among the sources).  Spec §4.1: "given an input fragment and a key-map
(input-field → entity-field), look up a cached entity.  Returns the entity
or appends a `NOT_FOUND`/`TOO_MANY_IDENTIFIERS` error keyed by a dotted
path...  Multiple identifier fields (id, external reference, SKU/email) are
tried in priority order; if more than one resolves to different entities it
is an error, not a silent pick." -/
def getInstance (attempts : List KeyAttempt) (path : String) :
    Except OrderBulkError Nat :=
  let rs := resolvedEntities attempts
  if rs.any (fun e => rs.any (fun e2 => e ≠ e2)) then
    Except.error (tooManyIdentifiersError path)
  else
    match rs.head? with
    | some e => Except.ok e
    | none => Except.error (notFoundError path)

/-- `get_instance_with_errors` (lines 814-853): call `get_instance` and, on
failure, append the raised error to the order's error list and return no
instance. -/
def getInstanceWithErrors (attempts : List KeyAttempt) (path : String)
    (errors : List OrderBulkError) : Option Nat × List OrderBulkError :=
  match getInstance attempts path with
  | Except.ok e => (some e, errors)
  | Except.error err => (none, errors ++ [err])

/-- The user-identifier fields of `OrderBulkCreateUserInput` (id, email,
external reference). -/
structure UserInput where
  id : Option String := none
  email : Option String := none
  externalReference : Option String := none

/-- The slices of the prefetched object storage (`get_all_instances`) that
the modelled resolution steps consult. -/
structure ObjectStorage where
  userById : String → Option Nat := fun _ => none
  userByEmail : String → Option Nat := fun _ => none
  userByExternalReference : String → Option Nat := fun _ => none
  appById : String → Option Nat := fun _ => none
  orderNumberExists : String → Bool := fun _ => false

/-- The key attempts for a user lookup with key map
`{"id": "id", "email": "email", "external_reference": "external_reference"}`. -/
def userAttempts (inp : UserInput) (storage : ObjectStorage) :
    List KeyAttempt :=
  [⟨inp.id, storage.userById⟩,
   ⟨inp.email, storage.userByEmail⟩,
   ⟨inp.externalReference, storage.userByExternalReference⟩]

/-- The user-resolution step of `get_instances_related_to_order`
(lines 863-882): resolve the order's user with path `"user"`; then, "if user
can't be found, but email is provided, consider it as valid" — when no user
was resolved, the last error is a `NOT_FOUND` and the input carried an
email, the just-appended error is popped again. -/
def resolveOrderUser (inp : UserInput) (storage : ObjectStorage)
    (errors : List OrderBulkError) : Option Nat × List OrderBulkError :=
  let (user, errors1) := getInstanceWithErrors (userAttempts inp storage) "user" errors
  if user.isNone
      && ((errors1.getLast?.map (fun e => e.code)) == some (some ErrorCode.notFound))
      && inp.email.isSome then
    (user, errors1.dropLast)
  else
    (user, errors1)

/-! ## Date validation, notes, invoices -/

/-- `is_datetime_valid` (lines 679-686): a datetime is accepted when it is
earlier than `now` plus the `MINUTES_DIFF`-minute clock-skew tolerance
(times in seconds). -/
def isDatetimeValid (now date : Int) : Bool :=
  date < now + MINUTES_DIFF * 60

/-- The fields of one order input read by `validate_order_input`. -/
structure OrderInputHead where
  createdAt : Option Int := none
  redirectUrl : Option String := none
  weight : Option Int := none
  number : Option String := none

/-- The `FUTURE_DATE` error of lines 694-700. -/
def futureCreatedAtError : OrderBulkError :=
  { message := "Order input contains future date."
    path := some "created_at"
    code := some ErrorCode.futureDate }

/-- The `INVALID` redirect-url error of lines 706-712. -/
def invalidRedirectUrlError : OrderBulkError :=
  { message := "Invalid redirect url."
    path := some "redirect_url"
    code := some ErrorCode.invalid }

/-- The `INVALID` negative-weight error of lines 716-722. -/
def negativeWeightError : OrderBulkError :=
  { message := "Order can't have negative weight."
    path := some "weight"
    code := some ErrorCode.invalid }

/-- The `UNIQUE` error of lines 727-733 for a number already persisted. -/
def uniqueExistingNumberError : OrderBulkError :=
  { message := "Order with this number already exists."
    path := some "number"
    code := some ErrorCode.unique }

/-- `validate_order_input` (lines 688-734): future `created_at`, invalid
redirect url (`validate_storefront_url` is external and abstracted as the
`storefrontUrlOk` predicate), negative weight, and a number colliding with an
already-persisted order; only the last also sets `is_critical_error`.
Returns the appended errors and the critical flag. -/
def validateOrderInput (now : Int) (storefrontUrlOk : String → Bool)
    (inp : OrderInputHead) (storage : ObjectStorage) :
    List OrderBulkError × Bool :=
  let e1 : List OrderBulkError :=
    match inp.createdAt with
    | some d => if !isDatetimeValid now d then [futureCreatedAtError] else []
    | none => []
  let e2 : List OrderBulkError :=
    match inp.redirectUrl with
    | some url => if !storefrontUrlOk url then [invalidRedirectUrlError] else []
    | none => []
  let e3 : List OrderBulkError :=
    match inp.weight with
    | some w => if w < 0 then [negativeWeightError] else []
    | none => []
  let (e4, critical) :=
    match inp.number with
    | some n =>
      if storage.orderNumberExists n then ([uniqueExistingNumberError], true)
      else ([], false)
    | none => ([], false)
  (e1 ++ e2 ++ e3 ++ e4, critical)

/-- The opening of `create_single_order` (lines 1548-1556): build a fresh
`OrderBulkClass`, run `validate_order_input`, and return it immediately —
with its order record still `None` — when the critical flag was set
(`some state`); `none` stands for "no early return: the later resolution
phases run" (they are modelled separately). -/
def createSingleOrderGate (now : Int) (storefrontUrlOk : String → Bool)
    (inp : OrderInputHead) (storage : ObjectStorage) :
    Option OrderBulkClass :=
  let (errs, critical) := validateOrderInput now storefrontUrlOk inp storage
  let o : OrderBulkClass :=
    { order := none, errors := errs, lines := [], fulfillments := []
      is_critical_error := critical }
  if o.is_critical_error then some o else none

/-- `OrderBulkCreateNoteInput`: message, optional date and user/app
identifiers. -/
structure NoteInput where
  message : String
  date : Option Int := none
  userId : Option String := none
  userEmail : Option String := none
  userExternalReference : Option String := none
  appId : Option String := none

/-- The fields of the `OrderEvent` row built for a note (lines 1226-1233). -/
structure OrderEventRec where
  date : Option Int
  message : String
  user : Option Nat
  app : Option Nat
  deriving DecidableEq, Repr

/-- Dotted path `f"notes.[{index}]"`. -/
def notePath (index : Nat) : String :=
  "notes.[" ++ toString index ++ "]"

/-- The `NOTE_LENGTH` error of lines 1170-1176. -/
def noteLengthError (index : Nat) : OrderBulkError :=
  { message := "Note message exceeds character limit."
    path := some (notePath index ++ ".message")
    code := some ErrorCode.noteLength }

/-- The `FUTURE_DATE` note error of lines 1181-1187. -/
def futureNoteDateError (index : Nat) : OrderBulkError :=
  { message := "Note input contains future date."
    path := some (notePath index ++ ".date")
    code := some ErrorCode.futureDate }

/-- The `TOO_MANY_IDENTIFIERS` error of lines 1218-1223 (both a user and an
app identifier on one note). -/
def noteUserAndAppError (index : Nat) : OrderBulkError :=
  { message := "Note input contains both user and app identifier."
    path := some (notePath index)
    code := some ErrorCode.tooManyIdentifiers }

/-- `create_single_note` (lines 1161-1235).  An over-long message rejects the
note (`none`).  A future date appends a `FUTURE_DATE` error and replaces the
date with `now`.  The optional user and app identifiers are resolved against
the cache; carrying both is a `TOO_MANY_IDENTIFIERS` error that drops both.
Returns the note event (if kept) and the updated error list. -/
def createSingleNote (now : Int) (inp : NoteInput) (storage : ObjectStorage)
    (errors : List OrderBulkError) (index : Nat) :
    Option OrderEventRec × List OrderBulkError :=
  if inp.message.length > MAX_NOTE_LENGTH then
    (none, errors ++ [noteLengthError index])
  else
    let (date, errors1) :=
      match inp.date with
      | some d =>
        if !isDatetimeValid now d then
          (some now, errors ++ [futureNoteDateError index])
        else (some d, errors)
      | none => (none, errors)
    let noteUserAttempts : List KeyAttempt :=
      [⟨inp.userId, storage.userById⟩,
       ⟨inp.userEmail, storage.userByEmail⟩,
       ⟨inp.userExternalReference, storage.userByExternalReference⟩]
    let (user, errors2) :=
      if inp.userId.isSome || inp.userEmail.isSome
          || inp.userExternalReference.isSome then
        getInstanceWithErrors noteUserAttempts (notePath index) errors1
      else (none, errors1)
    let (app, errors3) :=
      if inp.appId.isSome then
        getInstanceWithErrors [⟨inp.appId, storage.appById⟩] (notePath index)
          errors2
      else (none, errors2)
    let (user, app, errors4) :=
      if user.isSome && app.isSome then
        (none, none, errors3 ++ [noteUserAndAppError index])
      else (user, app, errors3)
    (some { date := date, message := inp.message, user := user, app := app },
      errors4)

/-- `OrderBulkCreateInvoiceInput`: required creation date, optional number
and url.  (The metadata fields, handled by `process_metadata`, carry no
claim and are omitted.) -/
structure InvoiceInput where
  createdAt : Int
  number : Option String := none
  url : Option String := none

/-- The fields of the `Invoice` row built at lines 1296-1302. -/
structure InvoiceRec where
  number : Option String
  externalUrl : Option String
  createdAt : Option Int
  deriving DecidableEq, Repr

/-- Dotted path `f"invoices.[{index}]"`. -/
def invoicePath (index : Nat) : String :=
  "invoices.[" ++ toString index ++ "]"

/-- The `FUTURE_DATE` invoice error of lines 1274-1280. -/
def futureInvoiceDateError (index : Nat) : OrderBulkError :=
  { message := "Invoice input contains future date."
    path := some (invoicePath index ++ ".created_at")
    code := some ErrorCode.futureDate }

/-- The `INVALID` invoice-url error of lines 1287-1293. -/
def invalidInvoiceUrlError (index : Nat) : OrderBulkError :=
  { message := "Invalid URL format."
    path := some (invoicePath index ++ ".url")
    code := some ErrorCode.invalid }

/-- `create_single_invoice` (lines 1265-1319), without the trailing metadata
processing.  A future `created_at` appends a `FUTURE_DATE` error and clears
the date to `None` (the row is still built and kept); an invalid url
(`URLValidator` is external, abstracted as `urlOk`) appends an `INVALID`
error and clears the url. -/
def createSingleInvoice (now : Int) (urlOk : String → Bool)
    (inp : InvoiceInput) (errors : List OrderBulkError) (index : Nat) :
    InvoiceRec × List OrderBulkError :=
  let (createdAt, errors1) :=
    if !isDatetimeValid now inp.createdAt then
      ((none : Option Int), errors ++ [futureInvoiceDateError index])
    else (some inp.createdAt, errors)
  let (url, errors2) :=
    match inp.url with
    | some u =>
      if !urlOk u then ((none : Option String), errors1 ++ [invalidInvoiceUrlError index])
      else (some u, errors1)
    | none => (none, errors1)
  ({ number := inp.number, externalUrl := url, createdAt := createdAt },
    errors2)

/-! ## Line/amount calculator -/

/-- Modelled from the spec: `quantize_price` (`saleor/core/prices.py` is not
among the sources).  Spec §4.2: amounts are "quantized to the currency's
minor-unit precision (round-half rules = currency-defined decimal places)";
`prec` is the currency's number of decimal places, and the value is rounded
half-way cases included to that many places. -/
def quantizePrice (p : ℚ) (prec : Nat) : ℚ :=
  (round (p * 10 ^ prec) : ℤ) / (10 ^ prec : ℚ)

/-- The input fields read by `make_order_line_calculations`
(lines 958-963): the two taxed totals, the quantity and the optional tax
rate.  The graphene `quantity` field is an `Int`, so the source's
`int(quantity) != quantity` test can never fire and `quantity` is embedded
as `Int` directly. -/
structure LineInput where
  totalGross : ℚ
  totalNet : ℚ
  undiscountedTotalGross : ℚ
  undiscountedTotalNet : ℚ
  quantity : Int
  taxRate : Option ℚ := none

/-- The `LineAmounts` dataclass (lines 245-256). -/
structure LineAmounts where
  totalGross : ℚ
  totalNet : ℚ
  unitGross : ℚ
  unitNet : ℚ
  undiscountedTotalGross : ℚ
  undiscountedTotalNet : ℚ
  undiscountedUnitGross : ℚ
  undiscountedUnitNet : ℚ
  quantity : Int
  taxRate : Option ℚ

/-- The `INVALID_QUANTITY` error of lines 967-974. -/
def invalidQuantityLineError (index : Nat) : OrderBulkError :=
  { message := "Invalid quantity. Must be integer greater then or equal to 1."
    path := some (linePath index ++ ".quantity")
    code := some ErrorCode.invalidQuantity }

/-- The `PRICE_ERROR` of lines 977-983 (discounted total). -/
def priceErrorTotal (index : Nat) : OrderBulkError :=
  { message := "Net price can't be greater then gross price."
    path := some (linePath index ++ ".total_price")
    code := some ErrorCode.priceError }

/-- The `PRICE_ERROR` of lines 986-992 (undiscounted total). -/
def priceErrorUndiscountedTotal (index : Nat) : OrderBulkError :=
  { message := "Net price can't be greater then gross price."
    path := some (linePath index ++ ".undiscounted_total_price")
    code := some ErrorCode.priceError }

/-- `make_order_line_calculations` (lines 950-1023): validate the quantity
and the two gross/net pairs, accumulating errors; on any failure return no
amounts.  Otherwise derive the four unit prices by exact division quantized
to the currency's precision, and default the tax rate to
`gross / net - 1` when it was not supplied and the net total is positive. -/
def makeOrderLineCalculations (inp : LineInput) (prec : Nat) (index : Nat) :
    List OrderBulkError × Option LineAmounts :=
  let e1 : List OrderBulkError :=
    if inp.quantity < 1 then [invalidQuantityLineError index] else []
  let e2 : List OrderBulkError :=
    if inp.totalGross < inp.totalNet then [priceErrorTotal index] else []
  let e3 : List OrderBulkError :=
    if inp.undiscountedTotalGross < inp.undiscountedTotalNet then
      [priceErrorUndiscountedTotal index]
    else []
  let errs := e1 ++ e2 ++ e3
  if errs.isEmpty then
    let q : ℚ := (inp.quantity : ℚ)
    let unitNet := quantizePrice (inp.totalNet / q) prec
    let unitGross := quantizePrice (inp.totalGross / q) prec
    let undiscountedUnitNet := quantizePrice (inp.undiscountedTotalNet / q) prec
    let undiscountedUnitGross :=
      quantizePrice (inp.undiscountedTotalGross / q) prec
    let taxRate :=
      match inp.taxRate with
      | some t => some t
      | none =>
        if inp.totalNet > 0 then some (inp.totalGross / inp.totalNet - 1)
        else none
    ([], some
      { totalGross := inp.totalGross
        totalNet := inp.totalNet
        unitGross := unitGross
        unitNet := unitNet
        undiscountedTotalGross := inp.undiscountedTotalGross
        undiscountedTotalNet := inp.undiscountedTotalNet
        undiscountedUnitGross := undiscountedUnitGross
        undiscountedUnitNet := undiscountedUnitNet
        quantity := inp.quantity
        taxRate := taxRate })
  else (errs, none)

/-- Some earlier position `i < j` of the batch holds an order that still has
an order record carrying number `n`. -/
def hasEarlierNumber (os : List OrderBulkClass) (j : Nat)
    (n : Option String) : Prop :=
  ∃ i, i < j ∧ ∃ oi ri, os[i]? = some oi ∧ oi.order = some ri ∧ ri.number = n

/-- The error lists account for every disqualification: an order whose
record is already null, or whose critical flag is already set, carries at
least one error.  Every per-order state `create_single_order` produces
satisfies this — each code path that nulls the record or sets the flag
appends an error first. -/
def ErrInv (o : OrderBulkClass) : Prop :=
  (o.order = none → o.errors ≠ []) ∧
  (o.is_critical_error = true → o.errors ≠ [])

instance (o : OrderBulkClass) : Decidable (ErrInv o) := by
  unfold ErrInv
  infer_instance

/-! ## Concrete scenarios used by witnesses and counterexamples -/

/-- A one-row stock database: variant 5 in warehouse 9, quantity 4, nothing
allocated, `extra` standing for the row's other columns. -/
def stockDbC10 : StocksMap :=
  [((5, 9), { quantity := 4, quantity_allocated := 0, extra := 11 })]

/-- One order with a two-unit line on (variant 5, warehouse 9), one unit of
which is already fulfilled. -/
def orderC10 : OrderBulkClass :=
  { order := some { number := some "1" }
    errors := []
    lines := [{ line := { id := 1, variantId := 5, quantity := 2 }
                warehouseId := 9 }]
    fulfillments := [{ lines := [{ line := { orderLineId := 1, quantity := 1 }
                                   warehouseId := 9 }] }]
    is_critical_error := false }

/-- First order carrying the explicit number "7". -/
def orderN1 : OrderBulkClass := { order := some { number := some "7" } }

/-- Second order carrying the same explicit number "7". -/
def orderN2 : OrderBulkClass := { order := some { number := some "7" } }

/-- An order with two lines on the same (variant 5, warehouse 9) pair. -/
def dupOrderC8 : OrderBulkClass :=
  { order := some { number := some "1" }
    errors := []
    lines := [{ line := { id := 1, variantId := 5, quantity := 1 }
                warehouseId := 9 },
              { line := { id := 2, variantId := 5, quantity := 1 }
                warehouseId := 9 }]
    fulfillments := []
    is_critical_error := false }

/-- A stock database with ample quantity for `dupOrderC8`. -/
def stockDbC8 : StocksMap :=
  [((5, 9), { quantity := 10, quantity_allocated := 0 })]

/-- An order competing for stock: a single line of quantity `q` on
(variant 5, warehouse 9), no fulfillments, no prior errors. -/
def competeOrder (lineId : Nat) (q : Int) : OrderBulkClass :=
  { order := some { number := none }
    errors := []
    lines := [{ line := { id := lineId, variantId := 5, quantity := q }
                warehouseId := 9 }]
    fulfillments := []
    is_critical_error := false }

/-- A stock database holding `a` units of variant 5 in warehouse 9. -/
def competeDb (a : Int) : StocksMap :=
  [((5, 9), { quantity := a, quantity_allocated := 0 })]

/-- An order whose single one-unit line carries a two-unit fulfillment:
more fulfilled than ordered. -/
def overfulfilledOrder : OrderBulkClass :=
  { order := some { number := some "1" }
    errors := []
    lines := [{ line := { id := 1, variantId := 5, quantity := 1 }
                warehouseId := 9 }]
    fulfillments := [{ lines := [{ line := { orderLineId := 1, quantity := 2 }
                                   warehouseId := 9 }] }]
    is_critical_error := false }

/-- An error-free order with number `n` and a one-unit line on
(variant 5, warehouse 9). -/
def raceOrder (lineId : Nat) (n : String) : OrderBulkClass :=
  { order := some { number := some n }
    errors := []
    lines := [{ line := { id := lineId, variantId := 5, quantity := 1 }
                warehouseId := 9 }]
    fulfillments := []
    is_critical_error := false }

/-! ## Theorems -/

/-- C3: for every input list with more than `MAX_ORDERS = 50` orders, the
call returns the single batch-level `BULK_LIMIT` error with `count = 0` and
persists nothing, and the result is independent of the per-order resolution
step — no per-order work contributes to it. -/
theorem claim_C3 {α : Type} (resolve : α → OrderBulkClass)
    (ordersInput : List α) (errorPolicy : ErrorPolicy)
    (stockPolicy : StockUpdatePolicy) (db : StocksMap)
    (h : ordersInput.length > MAX_ORDERS) :
    performMutation resolve ordersInput errorPolicy stockPolicy db =
      { count := 0
        results := [(none, [bulkLimitError])]
        persisted := []
        db := db }
    ∧ ∀ resolve2 : α → OrderBulkClass,
        performMutation resolve2 ordersInput errorPolicy stockPolicy db =
          performMutation resolve ordersInput errorPolicy stockPolicy db := by
  constructor
  · simp [performMutation, h]
  · intro resolve2
    simp [performMutation, h]

/-- Witness for C3 at a concrete 51-order input. -/
theorem claim_C3_witness :
    performMutation (fun _ : Unit => ({} : OrderBulkClass))
        (List.replicate 51 ()) defaultErrorPolicy defaultStockUpdatePolicy
        [] =
      { count := 0
        results := [(none, [bulkLimitError])]
        persisted := []
        db := [] } :=
  (claim_C3 (fun _ : Unit => ({} : OrderBulkClass)) (List.replicate 51 ())
    defaultErrorPolicy defaultStockUpdatePolicy [] (by decide)).1

/-- The quantization error of `quantizePrice` is at most half a minor unit
of the currency. -/
theorem quantizePrice_error (p : ℚ) (prec : Nat) :
    |quantizePrice p prec - p| ≤ 1 / (2 * 10 ^ prec) := by
  have h10 : (0 : ℚ) < 10 ^ prec := by positivity
  have hp : p = p * 10 ^ prec / 10 ^ prec :=
    (mul_div_cancel_right₀ p (ne_of_gt h10)).symm
  have key : quantizePrice p prec - p =
      ((round (p * 10 ^ prec) : ℤ) - p * 10 ^ prec) / 10 ^ prec := by
    rw [quantizePrice]
    nth_rewrite 2 [hp]
    rw [div_sub_div_same]
  have hhalf : (1 : ℚ) / (2 * 10 ^ prec) = (1 / 2) / 10 ^ prec := by
    rw [div_div]
  rw [key, hhalf, abs_div, abs_of_pos h10, abs_sub_comm]
  gcongr
  exact abs_sub_round (p * 10 ^ prec)

/-- C4 fails as stated: for the valid single-line order with
`total_net = total_gross = 1` and `quantity = 7` in a 2-decimal currency,
the computed unit net price is `0.14` and `0.14 * 7 = 0.98` differs from
`1.00` by two minor units, not at most one. -/
theorem claim_C4_counterexample :
    ((makeOrderLineCalculations
        { totalGross := 1, totalNet := 1, undiscountedTotalGross := 1
          undiscountedTotalNet := 1, quantity := 7 } 2 0).2.map
      (fun a => a.unitNet)) = some (7 / 50)
    ∧ ¬ (|(7 / 50 : ℚ) * 7 - 1| ≤ 1 / 100) := by
  constructor
  · norm_num [makeOrderLineCalculations, quantizePrice, round_eq]
  · intro h
    rw [show ((7 : ℚ) / 50 * 7 - 1) = -(1 / 50) by norm_num, abs_neg,
      abs_of_pos (by norm_num : (0 : ℚ) < 1 / 50)] at h
    norm_num at h

/-- C4, amended: for every valid single-line order the computed per-unit net
price is the quantized exact quotient, and `unit_net * quantity` differs
from `total_net` by at most `quantity` halves of a minor unit (half a minor
unit of rounding error per unit), not by at most one minor unit. -/
theorem claim_C4 (inp : LineInput) (prec index : Nat)
    (hq : 1 ≤ inp.quantity)
    (hg : inp.totalNet ≤ inp.totalGross)
    (hug : inp.undiscountedTotalNet ≤ inp.undiscountedTotalGross) :
    ∃ a, (makeOrderLineCalculations inp prec index).2 = some a ∧
      a.unitNet = quantizePrice (inp.totalNet / (inp.quantity : ℚ)) prec ∧
      |a.unitNet * (inp.quantity : ℚ) - inp.totalNet| ≤
        (inp.quantity : ℚ) / (2 * 10 ^ prec) := by
  have h1 : ¬ inp.quantity < 1 := not_lt.mpr hq
  have h2 : ¬ inp.totalGross < inp.totalNet := not_lt.mpr hg
  have h3 : ¬ inp.undiscountedTotalGross < inp.undiscountedTotalNet :=
    not_lt.mpr hug
  have hq0 : (0 : ℚ) < (inp.quantity : ℚ) := by
    exact_mod_cast lt_of_lt_of_le Int.one_pos hq
  simp only [makeOrderLineCalculations, if_neg h1, if_neg h2, if_neg h3,
    List.nil_append, List.isEmpty_nil]
  refine ⟨_, rfl, rfl, ?_⟩
  · have hrw : quantizePrice (inp.totalNet / (inp.quantity : ℚ)) prec *
        (inp.quantity : ℚ) - inp.totalNet =
        (quantizePrice (inp.totalNet / (inp.quantity : ℚ)) prec -
          inp.totalNet / (inp.quantity : ℚ)) * (inp.quantity : ℚ) := by
      field_simp
    rw [hrw, abs_mul, abs_of_pos hq0]
    calc |quantizePrice (inp.totalNet / (inp.quantity : ℚ)) prec -
            inp.totalNet / (inp.quantity : ℚ)| * (inp.quantity : ℚ)
        ≤ (1 / (2 * 10 ^ prec)) * (inp.quantity : ℚ) :=
          mul_le_mul_of_nonneg_right (quantizePrice_error _ _) (le_of_lt hq0)
      _ = (inp.quantity : ℚ) / (2 * 10 ^ prec) := by ring

/-- Witness for C4 at `quantity = 3`, `total_net = 1`, 2-decimal currency. -/
theorem claim_C4_witness :
    ∃ a, (makeOrderLineCalculations
        { totalGross := 1, totalNet := 1, undiscountedTotalGross := 1
          undiscountedTotalNet := 1, quantity := 3 } 2 0).2 = some a ∧
      a.unitNet = quantizePrice ((1 : ℚ) / ((3 : Int) : ℚ)) 2 ∧
      |a.unitNet * ((3 : Int) : ℚ) - 1| ≤ ((3 : Int) : ℚ) / (2 * 10 ^ 2) :=
  claim_C4
    { totalGross := 1, totalNet := 1, undiscountedTotalGross := 1
      undiscountedTotalNet := 1, quantity := 3 } 2 0
    (by decide) (by norm_num) (by norm_num)

/-- Unfolding lemma: looking up a key in a cons cell of a stocks map. -/
theorem lookupStock_cons (p : (Nat × Nat) × Stock) (rest : StocksMap)
    (k : Nat × Nat) :
    lookupStock (p :: rest) k =
      if p.1 == k then some p.2 else lookupStock rest k := by
  by_cases h : p.1 == k
  · simp [lookupStock, List.find?_cons_of_pos, h]
  · simp [lookupStock, List.find?_cons_of_neg, h]

/-- `bulk_update` writes exactly the listed fields: the view of the updated
database at any key is the original row, with the listed fields overwritten
from the matching updated row when one exists. -/
theorem lookupStock_bulkUpdateStocks (fields : List StockField)
    (db rows : StocksMap) (k : Nat × Nat) :
    lookupStock (bulkUpdateStocks fields db rows) k =
      (lookupStock db k).map (fun s =>
        match lookupStock rows k with
        | some r => fields.foldl (fun acc f => writeStockField f r acc) s
        | none => s) := by
  induction db with
  | nil => rfl
  | cons p rest ih =>
    have hhead : bulkUpdateStocks fields (p :: rest) rows =
        (match lookupStock rows p.1 with
          | some r =>
            (p.1, fields.foldl (fun acc f => writeStockField f r acc) p.2)
          | none => p) :: bulkUpdateStocks fields rest rows := rfl
    rw [hhead]
    by_cases h : p.1 == k
    · have hk : p.1 = k := by simpa using h
      subst hk
      rw [lookupStock_cons, lookupStock_cons]
      cases hrows : lookupStock rows p.1 with
      | none => simp [hrows]
      | some r => simp [hrows]
    · cases hrows : lookupStock rows p.1 with
      | none =>
        rw [lookupStock_cons, lookupStock_cons, if_neg h, if_neg h, ih]
      | some r =>
        rw [lookupStock_cons, lookupStock_cons]
        rw [if_neg (by simpa using h), if_neg h, ih]

/-- C10: for every batch commit, the persistence step writes back only the
`quantity` field of the touched stock rows: every database row keeps its
`quantity_allocated` (so the allocation increments simulated by
`handle_stocks` are never persisted) and all its other columns; a touched
row gets the simulated `quantity`, an untouched row is unchanged
entirely. -/
theorem claim_C10 (orders : List OrderBulkClass) (errorPolicy : ErrorPolicy)
    (stockPolicy : StockUpdatePolicy) (db : StocksMap) (k : Nat × Nat)
    (s : Stock) (h : lookupStock db k = some s) :
    ∃ s', lookupStock (pipeline orders errorPolicy stockPolicy db).db k
        = some s' ∧
      s'.quantity_allocated = s.quantity_allocated ∧
      s'.extra = s.extra ∧
      (∀ r, lookupStock (pipeline orders errorPolicy stockPolicy db).stocks k
          = some r → s'.quantity = r.quantity) ∧
      (lookupStock (pipeline orders errorPolicy stockPolicy db).stocks k
          = none → s' = s) := by
  have hdb : (pipeline orders errorPolicy stockPolicy db).db =
      bulkUpdateStocks [StockField.quantity] db
        (pipeline orders errorPolicy stockPolicy db).stocks := rfl
  rw [hdb, lookupStock_bulkUpdateStocks, h]
  cases hrows :
      lookupStock (pipeline orders errorPolicy stockPolicy db).stocks k with
  | none =>
    refine ⟨s, by simp, rfl, rfl, ?_, fun _ => rfl⟩
    intro r hr
    simp at hr
  | some r =>
    refine ⟨{ s with quantity := r.quantity }, ?_, rfl, rfl, ?_, ?_⟩
    · simp [writeStockField]
    · intro r2 hr2
      obtain rfl : r = r2 := by simpa using hr2
      rfl
    · intro hcontra
      simp at hcontra

/-- Witness for C10: the batch of `orderC10` over `stockDbC10` (where the
simulation does increment `quantity_allocated` and decrement `quantity`). -/
theorem claim_C10_witness :
    ∃ s', lookupStock
        (pipeline [orderC10] defaultErrorPolicy defaultStockUpdatePolicy
          stockDbC10).db (5, 9) = some s' ∧
      s'.quantity_allocated =
        ({ quantity := 4, quantity_allocated := 0, extra := 11 } :
          Stock).quantity_allocated ∧
      s'.extra =
        ({ quantity := 4, quantity_allocated := 0, extra := 11 } :
          Stock).extra ∧
      (∀ r, lookupStock
          (pipeline [orderC10] defaultErrorPolicy defaultStockUpdatePolicy
            stockDbC10).stocks (5, 9) = some r →
        s'.quantity = r.quantity) ∧
      (lookupStock
          (pipeline [orderC10] defaultErrorPolicy defaultStockUpdatePolicy
            stockDbC10).stocks (5, 9) = none →
        s' = { quantity := 4, quantity_allocated := 0, extra := 11 }) :=
  claim_C10 [orderC10] defaultErrorPolicy defaultStockUpdatePolicy
    stockDbC10 (5, 9) { quantity := 4, quantity_allocated := 0, extra := 11 }
    (by decide)

/-- C9 fails as stated: when the user input carries only an email that
resolves to no cached user, `get_instance_with_errors` does append a
`NOT_FOUND` error keyed by `"user"`, but `get_instances_related_to_order`
immediately pops it again ("if user can't be found, but email is provided,
consider it as valid"), so the error does not remain in the order's final
error list. -/
theorem claim_C9_counterexample :
    resolveOrderUser { email := some "ghost" } {} [] = (none, []) := rfl

/-- C9, amended: when the provided user identifier fields all fail to
resolve and no email is among them, the `NOT_FOUND` error keyed by the
dotted path `"user"` is appended to the order's error list and stays there;
when an email is provided, the error is popped again and the order
proceeds. -/
theorem claim_C9 (inp : UserInput) (storage : ObjectStorage)
    (errors : List OrderBulkError)
    (hEmail : inp.email = none)
    (hFailId : ∀ v, inp.id = some v → storage.userById v = none)
    (hFailExt : ∀ v, inp.externalReference = some v →
      storage.userByExternalReference v = none) :
    resolveOrderUser inp storage errors =
      (none, errors ++ [notFoundError "user"]) := by
  have hid : inp.id.bind storage.userById = none := by
    cases hid : inp.id with
    | none => rfl
    | some v => simpa using hFailId v hid
  have hext : inp.externalReference.bind storage.userByExternalReference
      = none := by
    cases hext : inp.externalReference with
    | none => rfl
    | some v => simpa using hFailExt v hext
  have hres : resolvedEntities (userAttempts inp storage) = [] := by
    simp [resolvedEntities, userAttempts, hid, hext, hEmail]
  have hget : getInstance (userAttempts inp storage) "user" =
      Except.error (notFoundError "user") := by
    rw [getInstance, hres]
    rfl
  rw [resolveOrderUser, getInstanceWithErrors, hget]
  simp [hEmail]

/-- Witness for C9: an unresolvable user id, no email. -/
theorem claim_C9_witness :
    resolveOrderUser { id := some "42" } {} [] =
      (none, [] ++ [notFoundError "user"]) :=
  claim_C9 { id := some "42" } {} [] rfl
    (fun _ _ => rfl) (fun v h => by cases h)

/-- `get_instance_with_errors` only appends to the error list. -/
theorem mem_getInstanceWithErrors (e : OrderBulkError)
    (attempts : List KeyAttempt) (path : String)
    (errors : List OrderBulkError) (h : e ∈ errors) :
    e ∈ (getInstanceWithErrors attempts path errors).2 := by
  rw [getInstanceWithErrors]
  cases getInstance attempts path with
  | ok v => exact h
  | error err => exact List.mem_append_left _ h

/-- C7 fails as stated: a future note date is not silently clamped — the
code records a `FUTURE_DATE` error besides replacing the date with "now"
(so under either error policy the order is rejected, not continued), and a
future invoice date is cleared to `None`, not set to "now". -/
theorem claim_C7_counterexample :
    createSingleNote 0 { message := "hi", date := some 1000 } {} [] 0 =
      (some { date := some 0, message := "hi", user := none, app := none },
        [futureNoteDateError 0])
    ∧ createSingleInvoice 0 (fun _ => true) { createdAt := 1000 } [] 0 =
      ({ number := none, externalUrl := none, createdAt := none },
        [futureInvoiceDateError 0]) :=
  ⟨rfl, rfl⟩

/-- C7, amended: any timestamp more than five minutes after "now" is treated
as a future date; a future order-level `created_at` appends a `FUTURE_DATE`
error to the order; a future note date appends a `FUTURE_DATE` error *and*
clamps the note's date to "now", keeping the note; a future invoice
`created_at` appends a `FUTURE_DATE` error and clears the invoice's date,
keeping the invoice.  (The note/invoice handling is not silent: the appended
error subjects the order to the error policy like any other error.) -/
theorem claim_C7 :
    (∀ now d : Int, now + MINUTES_DIFF * 60 < d →
      isDatetimeValid now d = false)
    ∧ (∀ (now : Int) (urlOk : String → Bool) (inp : OrderInputHead)
        (storage : ObjectStorage) (d : Int), inp.createdAt = some d →
        isDatetimeValid now d = false →
        futureCreatedAtError ∈ (validateOrderInput now urlOk inp storage).1)
    ∧ (∀ (now : Int) (inp : NoteInput) (storage : ObjectStorage)
        (errors : List OrderBulkError) (index : Nat) (d : Int),
        inp.message.length ≤ MAX_NOTE_LENGTH → inp.date = some d →
        isDatetimeValid now d = false →
        (∃ ev, (createSingleNote now inp storage errors index).1 = some ev ∧
          ev.date = some now) ∧
        futureNoteDateError index ∈
          (createSingleNote now inp storage errors index).2)
    ∧ (∀ (now : Int) (urlOk : String → Bool) (inp : InvoiceInput)
        (errors : List OrderBulkError) (index : Nat),
        isDatetimeValid now inp.createdAt = false →
        (createSingleInvoice now urlOk inp errors index).1.createdAt = none ∧
        futureInvoiceDateError index ∈
          (createSingleInvoice now urlOk inp errors index).2) := by
  refine ⟨?_, ?_, ?_, ?_⟩
  · intro now d h
    have h5 : MINUTES_DIFF = 5 := rfl
    rw [h5] at h
    simp only [isDatetimeValid, h5, decide_eq_false_iff_not, not_lt]
    omega
  · intro now urlOk inp storage d hd hfalse
    simp [validateOrderInput, hd, hfalse]
  · intro now inp storage errors index d hlen hd hfalse
    have hnotlong : ¬ inp.message.length > MAX_NOTE_LENGTH := not_lt.mpr hlen
    rw [createSingleNote, if_neg hnotlong]
    simp only [hd, hfalse, Bool.not_false, if_pos]
    rcases hu : (if inp.userId.isSome || inp.userEmail.isSome
        || inp.userExternalReference.isSome then
        getInstanceWithErrors
          [⟨inp.userId, storage.userById⟩,
           ⟨inp.userEmail, storage.userByEmail⟩,
           ⟨inp.userExternalReference, storage.userByExternalReference⟩]
          (notePath index) (errors ++ [futureNoteDateError index])
      else (none, errors ++ [futureNoteDateError index])) with ⟨user, errors2⟩
    have herr2 : futureNoteDateError index ∈ errors2 := by
      have hbase : futureNoteDateError index ∈
          errors ++ [futureNoteDateError index] := by simp
      by_cases hcond : inp.userId.isSome || inp.userEmail.isSome
          || inp.userExternalReference.isSome
      · rw [if_pos hcond] at hu
        have := mem_getInstanceWithErrors (futureNoteDateError index)
          [⟨inp.userId, storage.userById⟩,
           ⟨inp.userEmail, storage.userByEmail⟩,
           ⟨inp.userExternalReference, storage.userByExternalReference⟩]
          (notePath index) (errors ++ [futureNoteDateError index]) hbase
        rw [hu] at this
        exact this
      · rw [if_neg hcond] at hu
        cases hu
        exact hbase
    dsimp only
    rcases ha : (if inp.appId.isSome then
        getInstanceWithErrors [⟨inp.appId, storage.appById⟩] (notePath index)
          errors2
      else (none, errors2)) with ⟨app, errors3⟩
    have herr3 : futureNoteDateError index ∈ errors3 := by
      by_cases hcond : inp.appId.isSome
      · rw [if_pos hcond] at ha
        have := mem_getInstanceWithErrors (futureNoteDateError index)
          [⟨inp.appId, storage.appById⟩] (notePath index) errors2 herr2
        rw [ha] at this
        exact this
      · rw [if_neg hcond] at ha
        cases ha
        exact herr2
    dsimp only
    by_cases hboth : user.isSome && app.isSome
    · rw [if_pos hboth]
      dsimp only
      exact ⟨⟨_, rfl, rfl⟩, List.mem_append_left _ herr3⟩
    · rw [if_neg hboth]
      dsimp only
      exact ⟨⟨_, rfl, rfl⟩, herr3⟩
  · intro now urlOk inp errors index hfalse
    rw [createSingleInvoice]
    simp only [hfalse, Bool.not_false, if_pos]
    cases hurl : inp.url with
    | none => exact ⟨trivial, by simp⟩
    | some u =>
      by_cases hok : urlOk u
      · simp only [hok, Bool.not_true, Bool.false_eq_true, if_neg,
          not_false_iff]
        exact ⟨trivial, by simp⟩
      · simp only [hok, Bool.not_false, if_pos]
        exact ⟨trivial, by simp⟩

/-- Witness for C7 at concrete times (now = 0, supplied dates 1000 s ahead). -/
theorem claim_C7_witness :
    isDatetimeValid 0 1000 = false
    ∧ futureCreatedAtError ∈
        (validateOrderInput 0 (fun _ => true)
          { createdAt := some 1000 } {}).1
    ∧ (∃ ev, (createSingleNote 0 { message := "hi", date := some 1000 } {}
          [] 0).1 = some ev ∧ ev.date = some 0)
    ∧ (createSingleInvoice 0 (fun _ => true) { createdAt := 1000 } [] 0).1.createdAt
        = none :=
  ⟨claim_C7.1 0 1000 (by decide),
    claim_C7.2.1 0 (fun _ => true) { createdAt := some 1000 } {} 1000 rfl
      (by decide),
    (claim_C7.2.2.1 0 { message := "hi", date := some 1000 } {} [] 0 1000
      (by decide) rfl (by decide)).1,
    (claim_C7.2.2.2 0 (fun _ => true) { createdAt := 1000 } [] 0
      (by decide)).1⟩

/-- Characterization of the `validate_order_numbers` loop: an order at
position `j` that still holds a record is nulled with a `UNIQUE` error
exactly when its number was already seen — in the `numbers` accumulator or
on an earlier record-holding order of the batch — and is left untouched
otherwise. -/
theorem validateOrderNumbersGo_spec (os : List OrderBulkClass)
    (numbers : List (Option String)) (j : Nat) (oj : OrderBulkClass)
    (rj : OrderRec) (hj : os[j]? = some oj) (hrec : oj.order = some rj) :
    ((rj.number ∈ numbers ∨ hasEarlierNumber os j rj.number) →
      (validateOrderNumbersGo numbers os)[j]? =
        some { oj with
            errors := oj.errors ++ [uniqueBatchNumberError]
            order := none })
    ∧ ((rj.number ∉ numbers ∧ ¬ hasEarlierNumber os j rj.number) →
      (validateOrderNumbersGo numbers os)[j]? = some oj) := by
  induction os generalizing numbers j with
  | nil => simp at hj
  | cons o rest ih =>
    cases j with
    | zero =>
      have ho : o = oj := by simpa using hj
      subst ho
      have hno : ¬ hasEarlierNumber (o :: rest) 0 rj.number := by
        rintro ⟨i, hi, _⟩
        omega
      constructor
      · rintro (hmem | hearly)
        · simp [validateOrderNumbersGo, hrec, hmem]
        · exact absurd hearly hno
      · rintro ⟨hmem, _⟩
        simp [validateOrderNumbersGo, hrec, hmem]
    | succ j =>
      have hj' : rest[j]? = some oj := by simpa using hj
      cases ho : o.order with
      | none =>
        have hstep : validateOrderNumbersGo numbers (o :: rest) =
            o :: validateOrderNumbersGo numbers rest := by
          simp [validateOrderNumbersGo, ho]
        have hEquiv : hasEarlierNumber (o :: rest) (j + 1) rj.number ↔
            hasEarlierNumber rest j rj.number := by
          constructor
          · rintro ⟨i, hi, oi, ri, hoi, hord, hnum⟩
            cases i with
            | zero =>
              have : o = oi := by simpa using hoi
              subst this
              rw [ho] at hord
              cases hord
            | succ i =>
              exact ⟨i, by omega, oi, ri, by simpa using hoi, hord, hnum⟩
          · rintro ⟨i, hi, oi, ri, hoi, hord, hnum⟩
            exact ⟨i + 1, by omega, oi, ri, by simpa using hoi, hord, hnum⟩
        rw [hstep]
        simp only [List.getElem?_cons_succ, hEquiv]
        exact ih numbers j hj'
      | some r0 =>
        by_cases hmem0 : r0.number ∈ numbers
        · have hstep : validateOrderNumbersGo numbers (o :: rest) =
              { o with
                errors := o.errors ++ [uniqueBatchNumberError]
                order := none } :: validateOrderNumbersGo numbers rest := by
            simp [validateOrderNumbersGo, ho, hmem0]
          have hEquiv : (rj.number ∈ numbers ∨
              hasEarlierNumber (o :: rest) (j + 1) rj.number) ↔
              (rj.number ∈ numbers ∨ hasEarlierNumber rest j rj.number) := by
            constructor
            · rintro (h | ⟨i, hi, oi, ri, hoi, hord, hnum⟩)
              · exact Or.inl h
              · cases i with
                | zero =>
                  have heq : o = oi := by simpa using hoi
                  subst heq
                  rw [ho] at hord
                  cases hord
                  exact Or.inl (hnum ▸ hmem0)
                | succ i =>
                  exact Or.inr ⟨i, by omega, oi, ri, by simpa using hoi,
                    hord, hnum⟩
            · rintro (h | ⟨i, hi, oi, ri, hoi, hord, hnum⟩)
              · exact Or.inl h
              · exact Or.inr ⟨i + 1, by omega, oi, ri, by simpa using hoi,
                  hord, hnum⟩
          rw [hstep]
          simp only [List.getElem?_cons_succ]
          constructor
          · intro h
            exact (ih numbers j hj').1 (hEquiv.mp h)
          · rintro ⟨hmem, hearly⟩
            refine (ih numbers j hj').2 ⟨hmem, fun hc => ?_⟩
            rcases hEquiv.mpr (Or.inr hc) with h | h
            · exact hmem h
            · exact hearly h
        · have hstep : validateOrderNumbersGo numbers (o :: rest) =
              o :: validateOrderNumbersGo (numbers ++ [r0.number]) rest := by
            simp [validateOrderNumbersGo, ho, hmem0]
          have hIff : (rj.number ∈ numbers ∨
              hasEarlierNumber (o :: rest) (j + 1) rj.number) ↔
              (rj.number ∈ numbers ++ [r0.number] ∨
                hasEarlierNumber rest j rj.number) := by
            constructor
            · rintro (h | ⟨i, hi, oi, ri, hoi, hord, hnum⟩)
              · exact Or.inl (List.mem_append_left _ h)
              · cases i with
                | zero =>
                  have heq : o = oi := by simpa using hoi
                  subst heq
                  rw [ho] at hord
                  cases hord
                  exact Or.inl (List.mem_append_right _ (by simp [hnum]))
                | succ i =>
                  exact Or.inr ⟨i, by omega, oi, ri, by simpa using hoi,
                    hord, hnum⟩
            · rintro (h | ⟨i, hi, oi, ri, hoi, hord, hnum⟩)
              · rcases List.mem_append.mp h with h | h
                · exact Or.inl h
                · have hn : rj.number = r0.number := by simpa using h
                  exact Or.inr ⟨0, by omega, o, r0, by simp, ho, hn.symm⟩
              · exact Or.inr ⟨i + 1, by omega, oi, ri, by simpa using hoi,
                  hord, hnum⟩
          rw [hstep]
          simp only [List.getElem?_cons_succ]
          constructor
          · intro h
            exact (ih (numbers ++ [r0.number]) j hj').1 (hIff.mp h)
          · rintro ⟨hmem, hearly⟩
            have hnot : ¬ (rj.number ∈ numbers ++ [r0.number] ∨
                hasEarlierNumber rest j rj.number) := by
              intro hc
              rcases hIff.mpr hc with h | h
              · exact hmem h
              · exact hearly h
            push_neg at hnot
            exact (ih (numbers ++ [r0.number]) j hj').2 ⟨hnot.1, hnot.2⟩

/-- C6: (batch part) among the orders that still hold an order record when
`validate_order_numbers` runs, the first occurrence of each number keeps its
record and gains no error, while every later occurrence of the same number
gets a `UNIQUE` error appended and its record nulled; (existing part) an
order whose explicit number matches an already-persisted order's number gets
a `UNIQUE` error, the critical flag, and leaves `create_single_order` with
its record still null. -/
theorem claim_C6 :
    (∀ (os : List OrderBulkClass) (j : Nat) (oj : OrderBulkClass)
      (rj : OrderRec), os[j]? = some oj → oj.order = some rj →
      (hasEarlierNumber os j rj.number →
        (validateOrderNumbers os)[j]? =
          some { oj with
            errors := oj.errors ++ [uniqueBatchNumberError]
            order := none })
      ∧ (¬ hasEarlierNumber os j rj.number →
        (validateOrderNumbers os)[j]? = some oj))
    ∧ (∀ (now : Int) (urlOk : String → Bool) (inp : OrderInputHead)
        (storage : ObjectStorage) (n : String), inp.number = some n →
        storage.orderNumberExists n = true →
        ∃ o, createSingleOrderGate now urlOk inp storage = some o ∧
          o.order = none ∧ uniqueExistingNumberError ∈ o.errors ∧
          o.is_critical_error = true) := by
  constructor
  · intro os j oj rj hj hrec
    have h := validateOrderNumbersGo_spec os [] j oj rj hj hrec
    constructor
    · intro hearly
      exact h.1 (Or.inr hearly)
    · intro hnone
      exact h.2 ⟨by simp, hnone⟩
  · intro now urlOk inp storage n hn hstore
    simp only [createSingleOrderGate, validateOrderInput, hn, hstore]
    refine ⟨_, rfl, rfl, ?_, rfl⟩
    simp

/-- Witness for C6: a batch of two orders both numbered "7", and an input
whose number "7" matches a persisted order. -/
theorem claim_C6_witness :
    (validateOrderNumbers [orderN1, orderN2])[1]? =
      some { orderN2 with
        errors := orderN2.errors ++ [uniqueBatchNumberError]
        order := none }
    ∧ ∃ o, createSingleOrderGate 0 (fun _ => true) { number := some "7" }
        { orderNumberExists := fun s => s == "7" } = some o ∧
      o.order = none ∧ uniqueExistingNumberError ∈ o.errors ∧
      o.is_critical_error = true :=
  ⟨(claim_C6.1 [orderN1, orderN2] 1 orderN2 { number := some "7" }
      (by decide) rfl).1
      ⟨0, by omega, orderN1, { number := some "7" }, by decide, rfl, rfl⟩,
    claim_C6.2 0 (fun _ => true) { number := some "7" }
      { orderNumberExists := fun s => s == "7" } "7" rfl (by decide)⟩

/-- C8 is violated by the code: the duplicate detector
`order_lines_duplicates` exists on `OrderBulkClass` but is never invoked by
the mutation, so an order whose lines repeat the (variant 5, warehouse 9)
pair sails through the batch call with no error and is persisted
(`count = 1`, record kept) while `order_lines_duplicates` evaluates to
`true` on it. -/
theorem claim_C8 :
    dupOrderC8.orderLinesDuplicates = true
    ∧ (pipeline [dupOrderC8] defaultErrorPolicy defaultStockUpdatePolicy
        stockDbC8).count = 1
    ∧ (pipeline [dupOrderC8] defaultErrorPolicy defaultStockUpdatePolicy
        stockDbC8).orders.map (fun o => (o.order, o.errors)) =
      [(some { number := some "1" }, [])] := by
  refine ⟨rfl, ?_, ?_⟩ <;> decide

/-- One step of the order loop of `handle_stocks`. -/
theorem handleStocksGo_cons (policy : StockUpdatePolicy)
    (o : OrderBulkClass) (os : List OrderBulkClass) (m : StocksMap) :
    handleStocksGo policy (o :: os) m =
      ((processOrder policy m o).1 ::
        (handleStocksGo policy os (processOrder policy m o).2).1,
       (handleStocksGo policy os (processOrder policy m o).2).2) := rfl

/-- The map handed to the next order is the untouched shared map when the
order ends critical, and the order's simulated private copy otherwise. -/
theorem processOrder_snd (policy : StockUpdatePolicy) (m : StocksMap)
    (o : OrderBulkClass) :
    (processOrder policy m o).2 =
      if (processOrder policy m o).1.is_critical_error then m
      else (handleStocksLines policy o o.lines 0 m).2.2 := rfl

/-- C1: (competition) under the default stock update policy, when two
single-line orders compete for the same (variant, warehouse) stock with
enough available quantity (`q ≤ a < 2q`) for exactly one of them, the first
order in input order is granted the stock (no error, not critical) and the
second records `INSUFFICIENT_STOCK` as a critical error; (no leakage) for
every order in every batch, the private simulated copy replaces the shared
snapshot if and only if the order finishes allocation with its critical
flag unset — a failing order leaves the shared snapshot that the later
orders see untouched. -/
theorem claim_C1 :
    (∀ q a : Int, 0 < q → q ≤ a → a < 2 * q →
      ((handleStocks [competeOrder 1 q, competeOrder 2 q]
          defaultStockUpdatePolicy (competeDb a)).1.map
        (fun o => (o.order.isSome, o.errors, o.is_critical_error))) =
        [(true, [], false),
         (true, [insufficientStockError 0], true)])
    ∧ (∀ (policy : StockUpdatePolicy) (m : StocksMap) (o : OrderBulkClass)
        (os : List OrderBulkClass),
      ((processOrder policy m o).1.is_critical_error = true →
        handleStocksGo policy (o :: os) m =
          ((processOrder policy m o).1 :: (handleStocksGo policy os m).1,
           (handleStocksGo policy os m).2))
      ∧ ((processOrder policy m o).1.is_critical_error = false →
        handleStocksGo policy (o :: os) m =
          ((processOrder policy m o).1 ::
            (handleStocksGo policy os
              (handleStocksLines policy o o.lines 0 m).2.2).1,
           (handleStocksGo policy os
              (handleStocksLines policy o o.lines 0 m).2.2).2))) := by
  constructor
  · intro q a hq hqa ha2
    have h1 : ¬ (q < 0) := by omega
    have h2 : ¬ (a < q) := by omega
    have h3 : a - q < q := by omega
    simp [handleStocks, buildStocksMap, handleStocksGo, processOrder,
      handleStocksLines, lookupStock, setStock, competeOrder, competeDb,
      OrderBulkClass.quantityFulfilled, OrderBulkClass.allFulfillmentLines,
      OrderBulkClass.uniqueVariantIds, OrderBulkClass.uniqueWarehouseIds,
      h1, h2, h3, defaultStockUpdatePolicy]
  · intro policy m o os
    constructor
    · intro hcrit
      rw [handleStocksGo_cons, processOrder_snd, if_pos hcrit]
    · intro hcrit
      rw [handleStocksGo_cons, processOrder_snd, if_neg (by simp [hcrit])]

/-- Witness for C1: quantities `q = 1`, `a = 1` for the competition, and
the concrete second (critical) competitor for the no-leakage equation. -/
theorem claim_C1_witness :
    ((handleStocks [competeOrder 1 1, competeOrder 2 1]
        defaultStockUpdatePolicy (competeDb 1)).1.map
      (fun o => (o.order.isSome, o.errors, o.is_critical_error))) =
      [(true, [], false),
       (true, [insufficientStockError 0], true)]
    ∧ (handleStocksGo defaultStockUpdatePolicy [competeOrder 2 1]
        (competeDb 0) =
      ((processOrder defaultStockUpdatePolicy (competeDb 0)
          (competeOrder 2 1)).1 ::
        (handleStocksGo defaultStockUpdatePolicy [] (competeDb 0)).1,
       (handleStocksGo defaultStockUpdatePolicy [] (competeDb 0)).2)) :=
  ⟨claim_C1.1 1 1 (by decide) (by decide) (by decide),
    (claim_C1.2 defaultStockUpdatePolicy (competeDb 0) (competeOrder 2 1)
      []).1 (by decide)⟩

/-- `processOrder` appends the loop's errors and or-combines the critical
flag; it never touches the record, the lines or the fulfillments. -/
theorem processOrder_fst (policy : StockUpdatePolicy) (m : StocksMap)
    (o : OrderBulkClass) :
    (processOrder policy m o).1 = { o with
      errors := o.errors ++ (handleStocksLines policy o o.lines 0 m).1
      is_critical_error := o.is_critical_error ||
        (handleStocksLines policy o o.lines 0 m).2.1 } := rfl

/-- If the line loop of `handle_stocks` raises no critical error, every
line's already-fulfilled quantity is at most its ordered quantity. -/
theorem handleStocksLines_noCrit (policy : StockUpdatePolicy)
    (ord : OrderBulkClass) (ls : List OrderBulkOrderLine) (idx : Nat)
    (m : StocksMap)
    (h : (handleStocksLines policy ord ls idx m).2.1 = false) :
    ∀ l ∈ ls, ord.quantityFulfilled l.line.id ≤ l.line.quantity := by
  induction ls generalizing idx m with
  | nil =>
    intro l hl
    simp at hl
  | cons l0 rest ih =>
    rw [handleStocksLines] at h
    by_cases hneg : l0.line.quantity - ord.quantityFulfilled l0.line.id < 0
    · rw [if_pos hneg] at h
      simp at h
    · rw [if_neg hneg] at h
      intro l hl
      rcases List.mem_cons.mp hl with rfl | hl
      · omega
      · cases hstock : lookupStock m (l0.line.variantId, l0.warehouseId) with
        | none =>
          rw [hstock] at h
          simp at h
        | some stock =>
          rw [hstock] at h
          dsimp only at h
          rcases Bool.or_eq_false_iff.mp h with ⟨-, hrest⟩
          exact ih _ _ hrest l hl

/-- A first line with more fulfilled than ordered quantity makes the line
loop return immediately with the `INVALID_QUANTITY` error and the critical
flag. -/
theorem handleStocksLines_firstNeg (policy : StockUpdatePolicy)
    (ord : OrderBulkClass) (l : OrderBulkOrderLine)
    (rest : List OrderBulkOrderLine) (idx : Nat) (m : StocksMap)
    (h : l.line.quantity - ord.quantityFulfilled l.line.id < 0) :
    handleStocksLines policy ord (l :: rest) idx m =
      ([invalidQuantityStockError idx], true, m) := by
  rw [handleStocksLines, if_pos h]

/-- Every order produced by the order loop of `handle_stocks` is the
`processOrder` image of some input order (under some intermediate map). -/
theorem mem_handleStocksGo (policy : StockUpdatePolicy)
    (os : List OrderBulkClass) (m : StocksMap) (o' : OrderBulkClass)
    (h : o' ∈ (handleStocksGo policy os m).1) :
    ∃ o ∈ os, ∃ m0, o' = (processOrder policy m0 o).1 := by
  induction os generalizing m with
  | nil => simp [handleStocksGo] at h
  | cons o rest ih =>
    rw [handleStocksGo_cons] at h
    rcases List.mem_cons.mp h with h | h
    · exact ⟨o, List.mem_cons_self o rest, m, h⟩
    · rcases ih _ h with ⟨o2, ho2, m0, heq⟩
      exact ⟨o2, List.mem_cons_of_mem _ ho2, m0, heq⟩

/-- Every order produced by the nulling pass of `save_data` comes from an
input order, nulled exactly when its critical flag is set. -/
theorem mem_saveDataNull (os : List OrderBulkClass) (o' : OrderBulkClass)
    (h : o' ∈ saveDataNull os) :
    ∃ o ∈ os,
      o' = if o.is_critical_error then { o with order := none } else o := by
  rcases List.mem_map.mp h with ⟨o, ho, rfl⟩
  exact ⟨o, ho, rfl⟩

/-- C5, amended: whenever the stock update policy is not `SKIP` (for `SKIP`
the fulfillment-quantity check is bypassed entirely, see the
counterexample), every order persisted by the batch call has, for each of
its lines, a total fulfilled quantity not exceeding the ordered quantity;
and an order whose first line is overfulfilled gets a critical
`INVALID_QUANTITY` error and is excluded, under both error policies. -/
theorem claim_C5 (orders : List OrderBulkClass) (errorPolicy : ErrorPolicy)
    (stockPolicy : StockUpdatePolicy) (db : StocksMap)
    (hsp : stockPolicy ≠ StockUpdatePolicy.skip) :
    (∀ o' ∈ (pipeline orders errorPolicy stockPolicy db).orders,
      o'.order.isSome →
      ∀ l ∈ o'.lines, o'.quantityFulfilled l.line.id ≤ l.line.quantity)
    ∧ (∀ o' ∈ (pipeline orders errorPolicy stockPolicy db).orders,
      ∀ l rest, o'.lines = l :: rest →
        l.line.quantity - o'.quantityFulfilled l.line.id < 0 →
        o'.order = none ∧ invalidQuantityStockError 0 ∈ o'.errors) := by
  have hpipe : (pipeline orders errorPolicy stockPolicy db).orders =
      saveDataNull (handleStocks
        (handleErrorPolicy (validateOrderNumbers orders) errorPolicy)
        stockPolicy db).1 := by
    have h0 : (pipeline orders errorPolicy stockPolicy db).orders =
        saveDataNull (if stockPolicy ≠ StockUpdatePolicy.skip then
          handleStocks
            (handleErrorPolicy (validateOrderNumbers orders) errorPolicy)
            stockPolicy db
        else (handleErrorPolicy (validateOrderNumbers orders) errorPolicy,
          [])).1 := rfl
    rw [h0, if_pos hsp]
  constructor
  · intro o' ho' hsome l hl
    rw [hpipe] at ho'
    rcases mem_saveDataNull _ _ ho' with ⟨o3, ho3, heq⟩
    by_cases hcrit : o3.is_critical_error
    · rw [if_pos hcrit] at heq
      subst heq
      simp at hsome
    · rw [if_neg hcrit] at heq
      subst heq
      rcases mem_handleStocksGo _ _ _ _ ho3 with ⟨o2, ho2, m0, heq3⟩
      subst heq3
      rw [processOrder_fst] at hcrit hl ⊢
      simp only [Bool.or_eq_true, not_or] at hcrit
      have hrest :
          (handleStocksLines stockPolicy o2 o2.lines 0 m0).2.1 = false := by
        rcases Bool.not_eq_true _ |>.mp hcrit.2 with h
        exact h
      exact handleStocksLines_noCrit stockPolicy o2 o2.lines 0 m0 hrest l hl
  · intro o' ho' l rest hlines hneg
    rw [hpipe] at ho'
    rcases mem_saveDataNull _ _ ho' with ⟨o3, ho3, heq⟩
    rcases mem_handleStocksGo _ _ _ _ ho3 with ⟨o2, ho2, m0, heq3⟩
    subst heq3
    have hLF : o'.lines = o2.lines ∧ o'.fulfillments = o2.fulfillments ∧
        o'.errors = (processOrder stockPolicy m0 o2).1.errors := by
      by_cases hcrit :
          (processOrder stockPolicy m0 o2).1.is_critical_error = true
      · rw [heq, if_pos hcrit]
        exact ⟨rfl, rfl, rfl⟩
      · rw [heq, if_neg hcrit]
        exact ⟨rfl, rfl, rfl⟩
    obtain ⟨hl2, hf2, he2⟩ := hLF
    have hlines2 : o2.lines = l :: rest := hl2.symm.trans hlines
    have hq : o'.quantityFulfilled l.line.id =
        o2.quantityFulfilled l.line.id := by
      unfold OrderBulkClass.quantityFulfilled OrderBulkClass.allFulfillmentLines
      rw [hf2]
    rw [hq] at hneg
    have hloop := handleStocksLines_firstNeg stockPolicy o2 l rest 0 m0 hneg
    have hcrit3 : (processOrder stockPolicy m0 o2).1.is_critical_error
        = true := by
      rw [processOrder_fst]
      simp only [hlines2, hloop]
      simp
    have herrs : invalidQuantityStockError 0 ∈
        (processOrder stockPolicy m0 o2).1.errors := by
      rw [processOrder_fst]
      simp only [hlines2, hloop]
      simp
    rw [if_pos hcrit3] at heq
    refine ⟨?_, he2 ▸ herrs⟩
    rw [heq]

/-- C5 fails as stated ("regardless of the selected stock_update_policy"):
under the `SKIP` policy `handle_stocks` is never called, so an order with a
fulfilled quantity of 2 against an ordered quantity of 1 is persisted with
no error at all. -/
theorem claim_C5_counterexample :
    (pipeline [overfulfilledOrder] defaultErrorPolicy
        StockUpdatePolicy.skip
        [((5, 9), { quantity := 10, quantity_allocated := 0 })]).count = 1
    ∧ ((pipeline [overfulfilledOrder] defaultErrorPolicy
        StockUpdatePolicy.skip
        [((5, 9), { quantity := 10, quantity_allocated := 0 })]).orders.map
      (fun o => (o.order.isSome, o.errors))) = [(true, [])]
    ∧ overfulfilledOrder.quantityFulfilled 1 = 2
    ∧ (overfulfilledOrder.lines.map (fun l => l.line.quantity)) = [1] := by
  exact ⟨by decide, by decide, by decide, by decide⟩

/-- Witness for C5: the single-order batch of `overfulfilledOrder` under the
default (`UPDATE`) policy. -/
theorem claim_C5_witness :
    (∀ o' ∈ (pipeline [overfulfilledOrder] defaultErrorPolicy
        defaultStockUpdatePolicy
        [((5, 9), { quantity := 10, quantity_allocated := 0 })]).orders,
      o'.order.isSome →
      ∀ l ∈ o'.lines, o'.quantityFulfilled l.line.id ≤ l.line.quantity)
    ∧ (∀ o' ∈ (pipeline [overfulfilledOrder] defaultErrorPolicy
        defaultStockUpdatePolicy
        [((5, 9), { quantity := 10, quantity_allocated := 0 })]).orders,
      ∀ l rest, o'.lines = l :: rest →
        l.line.quantity - o'.quantityFulfilled l.line.id < 0 →
        o'.order = none ∧ invalidQuantityStockError 0 ∈ o'.errors) :=
  claim_C5 [overfulfilledOrder] defaultErrorPolicy defaultStockUpdatePolicy
    [((5, 9), { quantity := 10, quantity_allocated := 0 })] (by decide)

/-- The line loop of `handle_stocks` appends an error exactly when it sets
the critical flag. -/
theorem handleStocksLines_errs_eq_nil_iff (policy : StockUpdatePolicy)
    (ord : OrderBulkClass) (ls : List OrderBulkOrderLine) (idx : Nat)
    (m : StocksMap) :
    (handleStocksLines policy ord ls idx m).1 = [] ↔
    (handleStocksLines policy ord ls idx m).2.1 = false := by
  induction ls generalizing idx m with
  | nil => simp [handleStocksLines]
  | cons l0 rest ih =>
    rw [handleStocksLines]
    by_cases hneg : l0.line.quantity - ord.quantityFulfilled l0.line.id < 0
    · rw [if_pos hneg]
      simp
    · rw [if_neg hneg]
      cases hstock : lookupStock m (l0.line.variantId, l0.warehouseId) with
      | none => simp
      | some stock =>
        dsimp only
        by_cases hins :
            stock.quantity - stock.quantity_allocated <
              l0.line.quantity - ord.quantityFulfilled l0.line.id ∧
            policy ≠ StockUpdatePolicy.force
        · rw [if_pos hins]
          simp [decide_eq_true hins]
        · rw [if_neg hins]
          simp only [decide_eq_false hins, List.nil_append,
            Bool.false_or]
          exact ih _ _

/-- Every order produced by `validate_order_numbers` is an input order,
either untouched or nulled together with a `UNIQUE` error. -/
theorem mem_validateOrderNumbersGo (numbers : List (Option String))
    (os : List OrderBulkClass) (o' : OrderBulkClass)
    (h : o' ∈ validateOrderNumbersGo numbers os) :
    ∃ o ∈ os, o' = o ∨
      o' = { o with
        errors := o.errors ++ [uniqueBatchNumberError]
        order := none } := by
  induction os generalizing numbers with
  | nil => simp [validateOrderNumbersGo] at h
  | cons o0 rest ih =>
    cases ho : o0.order with
    | none =>
      rw [show validateOrderNumbersGo numbers (o0 :: rest) =
          o0 :: validateOrderNumbersGo numbers rest by
        simp [validateOrderNumbersGo, ho]] at h
      rcases List.mem_cons.mp h with heq | h
      · exact ⟨o0, List.mem_cons_self o0 rest, Or.inl heq⟩
      · rcases ih _ h with ⟨o, hoo, hcase⟩
        exact ⟨o, List.mem_cons_of_mem _ hoo, hcase⟩
    | some r0 =>
      by_cases hmem : r0.number ∈ numbers
      · rw [show validateOrderNumbersGo numbers (o0 :: rest) =
            { o0 with
              errors := o0.errors ++ [uniqueBatchNumberError]
              order := none } :: validateOrderNumbersGo numbers rest by
          simp [validateOrderNumbersGo, ho, hmem]] at h
        rcases List.mem_cons.mp h with heq | h
        · exact ⟨o0, List.mem_cons_self o0 rest, Or.inr heq⟩
        · rcases ih _ h with ⟨o, hoo, hcase⟩
          exact ⟨o, List.mem_cons_of_mem _ hoo, hcase⟩
      · rw [show validateOrderNumbersGo numbers (o0 :: rest) =
            o0 :: validateOrderNumbersGo (numbers ++ [r0.number]) rest by
          simp [validateOrderNumbersGo, ho, hmem]] at h
        rcases List.mem_cons.mp h with heq | h
        · exact ⟨o0, List.mem_cons_self o0 rest, Or.inl heq⟩
        · rcases ih _ h with ⟨o, hoo, hcase⟩
          exact ⟨o, List.mem_cons_of_mem _ hoo, hcase⟩

/-- `validate_order_numbers` preserves the error-accounting invariant. -/
theorem validateOrderNumbers_ErrInv (orders : List OrderBulkClass)
    (hinv : ∀ o ∈ orders, ErrInv o) :
    ∀ o' ∈ validateOrderNumbers orders, ErrInv o' := by
  intro o' h
  rcases mem_validateOrderNumbersGo [] orders o' h with ⟨o, ho, heq | heq⟩
  · exact heq ▸ hinv o ho
  · subst heq
    exact ⟨fun _ => by simp, fun _ => by simp⟩

/-- Under `reject_failed_rows`, the policy pass leaves every order with the
error invariant and the guarantee that an erroring order's record is null. -/
theorem handleErrorPolicy_prop (orders : List OrderBulkClass)
    (hinv : ∀ o ∈ orders, ErrInv o) (o' : OrderBulkClass)
    (h : o' ∈ handleErrorPolicy orders ErrorPolicy.rejectFailedRows) :
    ErrInv o' ∧ (o'.errors ≠ [] → o'.order = none) := by
  rw [handleErrorPolicy] at h
  by_cases hany : orders.any (fun o => !o.errors.isEmpty) = true
  · rw [if_pos hany] at h
    rcases List.mem_map.mp h with ⟨o, ho, rfl⟩
    dsimp only
    by_cases he : (!o.errors.isEmpty) = true
    · rw [if_pos he]
      have hne : o.errors ≠ [] := by simpa using he
      exact ⟨⟨fun _ => hne, fun hc => (hinv o ho).2 hc⟩, fun _ => rfl⟩
    · rw [if_neg he]
      have he' : o.errors = [] := by simpa using he
      exact ⟨hinv o ho, fun hc => absurd he' hc⟩
  · rw [if_neg hany] at h
    have hall : o'.errors = [] := by
      by_contra hne
      exact hany (List.any_eq_true.mpr ⟨o', h, by simpa using hne⟩)
    exact ⟨hinv o' h, fun hc => absurd hall hc⟩

/-- Under `reject_everything`, one error anywhere nulls every record. -/
theorem handleErrorPolicy_rejectEverything_none (os1 : List OrderBulkClass)
    (hex : ∃ o ∈ os1, o.errors ≠ []) :
    ∀ o' ∈ handleErrorPolicy os1 ErrorPolicy.rejectEverything,
      o'.order = none := by
  intro o' h
  rw [handleErrorPolicy] at h
  rcases hex with ⟨o0, ho0, hne⟩
  rw [if_pos (List.any_eq_true.mpr ⟨o0, ho0, by simpa using hne⟩)] at h
  rcases List.mem_map.mp h with ⟨o, ho, rfl⟩
  rfl

/-- The per-order states the batch call returns, unfolded one step. -/
theorem pipeline_orders_eq (orders : List OrderBulkClass)
    (ep : ErrorPolicy) (sp : StockUpdatePolicy) (db : StocksMap) :
    (pipeline orders ep sp db).orders =
      saveDataNull (if sp ≠ StockUpdatePolicy.skip then
        handleStocks (handleErrorPolicy (validateOrderNumbers orders) ep)
          sp db
      else (handleErrorPolicy (validateOrderNumbers orders) ep, [])).1 := rfl

/-- The returned `count` counts the orders whose record is not null. -/
theorem pipeline_count_eq (orders : List OrderBulkClass) (ep : ErrorPolicy)
    (sp : StockUpdatePolicy) (db : StocksMap) :
    (pipeline orders ep sp db).count =
      (pipeline orders ep sp db).orders.countP
        (fun o => o.order.isSome) := rfl

/-- C2, amended: (reject_everything) one error present in any order when
the error policy is applied — i.e. after per-order resolution and order
number validation, before stock allocation — nulls every order's result and
makes the count 0; (reject_failed_rows) in the final results an order's
record is kept exactly when its error list is empty, and the count equals
the number of error-free orders.  Both parts assume the resolution-phase
invariant that a nulled record or a set critical flag is always accompanied
by an error. -/
theorem claim_C2 (orders : List OrderBulkClass) (sp : StockUpdatePolicy)
    (db : StocksMap) (hinv : ∀ o ∈ orders, ErrInv o) :
    ((∃ o ∈ validateOrderNumbers orders, o.errors ≠ []) →
      (∀ o' ∈ (pipeline orders ErrorPolicy.rejectEverything sp db).orders,
        o'.order = none)
      ∧ (pipeline orders ErrorPolicy.rejectEverything sp db).count = 0)
    ∧ ((∀ o' ∈ (pipeline orders ErrorPolicy.rejectFailedRows sp db).orders,
        (o'.order.isSome = true ↔ o'.errors = []))
      ∧ (pipeline orders ErrorPolicy.rejectFailedRows sp db).count =
        (pipeline orders ErrorPolicy.rejectFailedRows sp db).orders.countP
          (fun o => o.errors.isEmpty)) := by
  constructor
  · intro hex
    have hnone : ∀ o' ∈
        (pipeline orders ErrorPolicy.rejectEverything sp db).orders,
        o'.order = none := by
      intro o' ho'
      rw [pipeline_orders_eq] at ho'
      have hpol := handleErrorPolicy_rejectEverything_none _ hex
      by_cases hsp : sp ≠ StockUpdatePolicy.skip
      · rw [if_pos hsp] at ho'
        rcases mem_saveDataNull _ _ ho' with ⟨o3, ho3, heq⟩
        rcases mem_handleStocksGo _ _ _ _ ho3 with ⟨o2, ho2, m0, heq3⟩
        subst heq3
        have h2 : o2.order = none := hpol o2 ho2
        by_cases hcrit : (processOrder sp m0 o2).1.is_critical_error = true
        · rw [if_pos hcrit] at heq
          subst heq
          rfl
        · rw [if_neg hcrit] at heq
          subst heq
          rw [processOrder_fst]
          exact h2
      · rw [if_neg hsp] at ho'
        rcases mem_saveDataNull _ _ ho' with ⟨o2, ho2, heq⟩
        have h2 : o2.order = none := hpol o2 ho2
        by_cases hcrit : o2.is_critical_error = true
        · rw [if_pos hcrit] at heq
          subst heq
          rfl
        · rw [if_neg hcrit] at heq
          subst heq
          exact h2
    refine ⟨hnone, ?_⟩
    rw [pipeline_count_eq]
    exact List.countP_eq_zero.mpr (fun o' ho' => by simp [hnone o' ho'])
  · have hQ : ∀ o2 ∈ handleErrorPolicy (validateOrderNumbers orders)
        ErrorPolicy.rejectFailedRows,
        ErrInv o2 ∧ (o2.errors ≠ [] → o2.order = none) :=
      fun o2 h2 => handleErrorPolicy_prop _
        (validateOrderNumbers_ErrInv orders hinv) o2 h2
    have hiff : ∀ o' ∈
        (pipeline orders ErrorPolicy.rejectFailedRows sp db).orders,
        (o'.order.isSome = true ↔ o'.errors = []) := by
      intro o' ho'
      rw [pipeline_orders_eq] at ho'
      by_cases hsp : sp ≠ StockUpdatePolicy.skip
      · rw [if_pos hsp] at ho'
        rcases mem_saveDataNull _ _ ho' with ⟨o3, ho3, heq⟩
        rcases mem_handleStocksGo _ _ _ _ ho3 with ⟨o2, ho2, m0, heq3⟩
        subst heq3
        rcases hQ o2 ho2 with ⟨⟨hi1, hi2⟩, hp2⟩
        have hEC := handleStocksLines_errs_eq_nil_iff sp o2 o2.lines 0 m0
        by_cases hcrit : (processOrder sp m0 o2).1.is_critical_error = true
        · rw [if_pos hcrit] at heq
          subst heq
          constructor
          · intro hsome
            simp at hsome
          · intro hz
            exfalso
            rw [processOrder_fst] at hcrit hz
            simp only [List.append_eq_nil] at hz
            rcases hz with ⟨hz1, hz2⟩
            have hC : (handleStocksLines sp o2 o2.lines 0 m0).2.1 = false :=
              hEC.mp hz2
            simp only [hC, Bool.or_false] at hcrit
            exact hi2 hcrit hz1
        · rw [if_neg hcrit] at heq
          subst heq
          rw [processOrder_fst] at hcrit ⊢
          simp only [Bool.or_eq_true, not_or, Bool.not_eq_true] at hcrit
          have hE : (handleStocksLines sp o2 o2.lines 0 m0).1 = [] :=
            hEC.mpr hcrit.2
          constructor
          · intro hsome
            simp only [hE, List.append_nil]
            by_contra hne
            have h2 := hp2 hne
            simp only [h2, Option.isSome_none] at hsome
            cases hsome
          · intro hz
            simp only [hE, List.append_nil] at hz
            cases ho : o2.order with
            | none => exact absurd (hi1 ho) (by simp [hz])
            | some r => simp [ho]
      · rw [if_neg hsp] at ho'
        rcases mem_saveDataNull _ _ ho' with ⟨o2, ho2, heq⟩
        rcases hQ o2 ho2 with ⟨⟨hi1, hi2⟩, hp2⟩
        by_cases hcrit : o2.is_critical_error = true
        · rw [if_pos hcrit] at heq
          subst heq
          constructor
          · intro hsome
            simp at hsome
          · intro hz
            exact absurd hz (hi2 hcrit)
        · rw [if_neg hcrit] at heq
          subst heq
          constructor
          · intro hsome
            by_contra hne
            have h2 := hp2 hne
            simp only [h2, Option.isSome_none] at hsome
            cases hsome
          · intro hz
            cases ho : o'.order with
            | none => exact absurd (hi1 ho) (by simp [hz])
            | some r => simp [ho]
    refine ⟨hiff, ?_⟩
    rw [pipeline_count_eq]
    refine List.countP_congr ?_
    intro o' ho'
    constructor
    · intro hsome
      simp [(hiff o' ho').mp hsome]
    · intro hempty
      exact (hiff o' ho').mpr (by simpa using hempty)

/-- C2 fails as stated: the error policy is applied (line 1949) before
stock allocation (line 1951), so an `INSUFFICIENT_STOCK` error found during
allocation bypasses `reject_everything` — in this batch of two error-free
orders competing for one unit of stock, the returned results contain an
error on the second order, yet the first order is persisted and the count
is 1, not 0. -/
theorem claim_C2_counterexample :
    ((pipeline [raceOrder 1 "1", raceOrder 2 "2"]
        ErrorPolicy.rejectEverything defaultStockUpdatePolicy
        (competeDb 1)).orders.map (fun o => (o.order.isSome, o.errors))) =
      [(true, []), (false, [insufficientStockError 0])]
    ∧ (pipeline [raceOrder 1 "1", raceOrder 2 "2"]
        ErrorPolicy.rejectEverything defaultStockUpdatePolicy
        (competeDb 1)).count = 1 :=
  ⟨by decide, by decide⟩

/-- Witness for C2 at the concrete two-order batch over one unit of
stock. -/
theorem claim_C2_witness :
    ((∃ o ∈ validateOrderNumbers [raceOrder 1 "1", raceOrder 2 "2"],
      o.errors ≠ []) →
      (∀ o' ∈ (pipeline [raceOrder 1 "1", raceOrder 2 "2"]
          ErrorPolicy.rejectEverything defaultStockUpdatePolicy
          (competeDb 1)).orders, o'.order = none)
      ∧ (pipeline [raceOrder 1 "1", raceOrder 2 "2"]
          ErrorPolicy.rejectEverything defaultStockUpdatePolicy
          (competeDb 1)).count = 0)
    ∧ ((∀ o' ∈ (pipeline [raceOrder 1 "1", raceOrder 2 "2"]
          ErrorPolicy.rejectFailedRows defaultStockUpdatePolicy
          (competeDb 1)).orders,
        (o'.order.isSome = true ↔ o'.errors = []))
      ∧ (pipeline [raceOrder 1 "1", raceOrder 2 "2"]
          ErrorPolicy.rejectFailedRows defaultStockUpdatePolicy
          (competeDb 1)).count =
        (pipeline [raceOrder 1 "1", raceOrder 2 "2"]
          ErrorPolicy.rejectFailedRows defaultStockUpdatePolicy
          (competeDb 1)).orders.countP (fun o => o.errors.isEmpty)) :=
  claim_C2 [raceOrder 1 "1", raceOrder 2 "2"] defaultStockUpdatePolicy
    (competeDb 1) (by decide)

end OrderBulk
